import Mathlib

/-!
Shallow embedding of the zotmd Synchronization Engine
(`src/zotmd/core/sync_engine.py` and `src/zotmd/core/template_manager.py`).

The engine's external collaborators (the SQLite state store, the Zotero
client, the renderer and the file manager) live in modules that are not part
of the embedded core; they are modelled at their interface boundary:
the state store as an explicit `Db` value, the remote source as a record of
possibly-failing query results (`RemoteE`), and the renderer / file layer as
an environment of functions (`Env`).  Thread-pool fan-out is modelled as a
sequential fold over the work list: every claim proved here is about the
per-item outcomes and the aggregate counters, none of which depend on
dispatch order (each worker touches only its own key).
-/

namespace Zotmd

/-- Python truthiness of an optional string (`if s:` is false for `None` and
for the empty string). -/
def truthy : Option String → Bool
  | none => false
  | some s => !(s == "")

/-- Python truthiness filter: collapse a falsy string (`""`) to `none`,
mirroring `if existing_content:` guards in the source. -/
def truthyStr : Option String → Option String
  | some s => if s == "" then none else some s
  | x => x

/-- Python-dict assignment on an association list: replace the first binding
of the key if present, otherwise append. -/
def dictSet {α : Type} : List (String × α) → String → α → List (String × α)
  | [], k, v => [(k, v)]
  | (k', v') :: rest, k, v =>
    if k' = k then (k, v) :: rest else (k', v') :: dictSet rest k v

/-- Python `dict.setdefault(k, []).append(v)` on an association list. -/
def dictAppend {α : Type} : List (String × List α) → String → α → List (String × List α)
  | [], k, v => [(k, [v])]
  | (k', vs) :: rest, k, v =>
    if k' = k then (k', vs ++ [v]) :: rest else (k', vs) :: dictAppend rest k v

/-- Scanner for `pyCount`: the `Nat` argument is the number of characters
still to be consumed without a new match attempt (the tail of a match just
found, giving Python's non-overlapping semantics). -/
def pyCountGo (sub : List Char) : Nat → List Char → Nat
  | _, [] => 0
  | 0, c :: rest =>
    if sub.isPrefixOf (c :: rest) && !sub.isEmpty then
      pyCountGo sub (sub.length - 1) rest + 1
    else
      pyCountGo sub 0 rest
  | n + 1, _ :: rest => pyCountGo sub n rest

/-- Python `str.count(sub)`: number of non-overlapping occurrences of `sub`,
scanning left to right (`sync_engine.py` uses it on the annotation marker,
which is nonempty; the `sub = []` case is never exercised). -/
def pyCount (sub s : List Char) : Nat := pyCountGo sub 0 s

/-- Python `sub in s` substring test. -/
def hasSub (sub : List Char) : List Char → Bool
  | [] => sub.isEmpty
  | c :: rest => sub.isPrefixOf (c :: rest) || hasSub sub rest

/-- Python `str.lower()` (the source only lowercases ASCII content types). -/
def lowerStr (s : String) : String := ⟨s.data.map Char.toLower⟩

/-- The annotation marker counted by the skip heuristic
(`existing_annotations.count("- <mark class=")` in `_sync_single_item_batch`). -/
def annotMarker : String := "- <mark class="

/-- The stored template version singleton `(fingerprint, path identifier)`. -/
structure TemplateVersion where
  templateHash : String
  templatePath : String
deriving Repr, DecidableEq

/-- One `ItemState` row of the state store (`sync_items` table), as
constructed by `sync_engine.py` (the `last_synced_at` timestamp column is
not modelled; no claim concerns it). -/
structure ItemState where
  zoteroKey : String
  citationKey : String
  itemType : String
  zoteroVersion : Nat
  filePath : String
  syncStatus : String
  contentHash : String
deriving Repr, DecidableEq

/-- A raw Zotero API item record, restricted to the fields `sync_engine.py`
reads: the external key, the remote version, and whatever
`ZoteroItem.from_api_response` needs to derive a citation key and type. -/
structure RawItem where
  key : String
  version : Nat
  citationKey : Option String
  itemType : String
deriving Repr, DecidableEq

/-- A parsed `ZoteroItem` as used by the engine: key, version, citation key,
item type. -/
structure Item where
  key : String
  version : Nat
  citationKey : String
  itemType : String
deriving Repr, DecidableEq

/-- Modelled from the spec: `ZoteroItem.from_api_response`
(`models/item.py`, not part of the embedded core) returns a parsed item
whose key/version mirror the raw record, and returns `None` exactly when no
citation key is derivable ("A record with no derivable citation key is
excluded from sync entirely"). -/
def parseItem (r : RawItem) : Option Item :=
  match r.citationKey with
  | some ck => some ⟨r.key, r.version, ck, r.itemType⟩
  | none => none

/-- Modelled from the spec: a raw Zotero annotation record
(`models/annotation.py`, not part of the embedded core); the engine only
reads `annotation.parent_key`, the key of the attachment that owns the
annotation. -/
structure RawAnnot where
  annotKey : String
  parentKey : String
deriving Repr, DecidableEq

/-- A raw Zotero attachment record, restricted to the fields
`_build_batch_data` reads: `key`, `data.parentItem` and `data.contentType`
(absent JSON fields are `none`; `contentType` defaults to `""`). -/
structure RawAttachment where
  key : Option String
  parentItem : Option String
  contentType : String
deriving Repr, DecidableEq

/-- One row of the state store together with its cached raw payload
(the `item_json` column; `json.dumps`/`json.loads` round-tripping is
modelled as the identity, so the column holds the `RawItem` itself). -/
structure DbRow where
  state : ItemState
  itemJson : Option RawItem
deriving Repr, DecidableEq

/-- The persistent state store: the `sync_items` table keyed by external
key, the last recorded library version, and the template-version
singleton. -/
structure Db where
  rows : List (String × DbRow)
  lastLibraryVersion : Option Nat
  templateVersion : Option TemplateVersion
deriving Repr, DecidableEq

/-- Modelled from the spec: `StateManager.get_item_state` returns the row
for an external key regardless of its status (soft-delete keeps removed
rows visible for reactivation). -/
def Db.getItemState (db : Db) (k : String) : Option ItemState :=
  (db.rows.lookup k).map (·.state)

/-- The cached raw payload of a row (`item_json` column), `none` when the
row is absent or the column is null. -/
def Db.getItemJson (db : Db) (k : String) : Option RawItem :=
  (db.rows.lookup k).bind (·.itemJson)

/-- Modelled from the spec: `StateManager.upsert_item` atomically replaces
or inserts the row keyed by `st.zoteroKey`, including the cached payload. -/
def Db.upsertItem (db : Db) (st : ItemState) (raw : Option RawItem) : Db :=
  { db with rows := dictSet db.rows st.zoteroKey ⟨st, raw⟩ }

/-- Modelled from the spec: `StateManager.mark_item_removed` sets the
status column of the row to `"removed"`; the row itself is never deleted. -/
def Db.markRemoved (db : Db) (k : String) : Db :=
  { db with rows := db.rows.map (fun p =>
      if p.1 = k then
        (p.1, { p.2 with state := { p.2.state with syncStatus := "removed" } })
      else p) }

/-- Modelled from the spec: `StateManager.get_active_items` returns the
states of the rows whose status is `"active"`, in table order. -/
def Db.activeItems (db : Db) : List ItemState :=
  (db.rows.filter (fun p => p.2.state.syncStatus == "active")).map (·.2.state)

/-- Modelled from the spec: `StateManager.get_all_item_keys` returns the
tracked keys used for the full-sync set difference; per the spec's
deletion round-trip property (a removed key is not re-processed by a
second run) these are the keys of the active rows. -/
def Db.activeKeys (db : Db) : List String :=
  (db.rows.filter (fun p => p.2.state.syncStatus == "active")).map (·.1)

/-- The local artifact store: citation key to current file text
(`FileManager.read_existing` / `write_markdown` at the interface
boundary). -/
abbrev Files := List (String × String)

/-- `BatchData` from `sync_engine.py`: the per-run prefetched index. -/
structure BatchData where
  annotationsByItem : List (String × List RawAnnot)
  attachmentKeys : List (String × String)
deriving Repr, DecidableEq

/-- The `SyncResult` aggregate (counters and error strings); the
thread-safe increments of the source are modelled as pure record
updates applied at the fold. -/
structure SyncResultR where
  totalItemsProcessed : Nat
  itemsCreated : Nat
  itemsUpdated : Nat
  itemsRemoved : Nat
  itemsSkipped : Nat
  annotationsSynced : Nat
  errors : List String
deriving Repr, DecidableEq

/-- The fresh `SyncResult()` constructed at the start of a run. -/
def emptyResult : SyncResultR := ⟨0, 0, 0, 0, 0, 0, []⟩

/-- The observable outcome of one `_sync_single_item_batch` call: counter
increments, whether the renderer was invoked, the file write and the state
row upsert performed, and the per-item error (if the render raised). -/
structure StepOut where
  processedInc : Nat
  skippedInc : Nat
  createdInc : Nat
  updatedInc : Nat
  annotationsInc : Nat
  renderCalled : Bool
  err : Option String
  written : Option (String × String)
  upsert : Option (ItemState × RawItem)
deriving Repr, DecidableEq

/-- The observable outcome of one `_rerender_single_item` call. -/
structure RerenderOut where
  fetchedRemote : Bool
  parsedOk : Bool
  renderCalled : Bool
  err : Option String
  written : Option (String × String)
  upsert : Option (ItemState × RawItem)
  updatedInc : Nat
deriving Repr, DecidableEq

/-- The engine's pure collaborators: the renderer and file layer at their
interface boundary, plus the active template's fingerprint and path
identifier, and an error-injection switch for the final version commit
(an external store write that may raise). -/
structure Env where
  extractAnnotations : String → Option String
  extractNotes : String → Option String
  render : Item → List RawAnnot → String → Option String → Option String →
    Except String String
  contentHash : String → String
  writePath : String → String
  handleRemoved : String → Option String
  templateHash : String
  templatePath : String
  commitFailure : Option String

/-- The remote source at its interface boundary: each query either yields
its data or raises. -/
structure RemoteE where
  libraryVersion : Except String Nat
  allItems : Except String (List RawItem)
  itemsSince : Nat → Except String (List RawItem)
  deletedSince : Nat → Except String (List String)
  allAnnotationLists : Except String (List RawAnnot)
  allAttachments : Except String (List RawAttachment)
  fetchItem : String → Except String RawItem

/-- Result of the parallel fan-out over raw items, with the per-item trace
(key, outcome) in work-list order. -/
structure ItemsPhase where
  result : SyncResultR
  db : Db
  files : Files
  trace : List (String × StepOut)
deriving Repr

/-- Result of the parallel fan-out of the full re-render. -/
structure RerenderPhase where
  result : SyncResultR
  db : Db
  files : Files
  trace : List (String × RerenderOut)
deriving Repr

/-- The overall outcome of one sync entry point: final store and files,
the returned `SyncResult` or the propagated run-level error, and the
per-item traces of whichever fan-out ran. -/
structure SyncOut where
  db : Db
  files : Files
  res : Except String SyncResultR
  itemTrace : List (String × StepOut)
  rerenderTrace : List (String × RerenderOut)
deriving Repr

/-- `TemplateChangeDetector.has_template_changed` (`template_manager.py`):
no stored version reports unchanged; otherwise changed iff the fingerprint
or the path identifier differs. -/
def hasTemplateChanged (currentHash currentPath : String)
    (stored : Option TemplateVersion) : Bool :=
  match stored with
  | none => false
  | some sv =>
    if sv.templateHash != currentHash then true
    else if sv.templatePath != currentPath then true
    else false

/-- The content-type predicate of `_build_batch_data`:
`"pdf" in content_type.lower()`. -/
def pdfMatch (contentType : String) : Bool :=
  hasSub "pdf".toList (lowerStr contentType).toList

/-- The first loop of `_build_batch_data`: fold the raw attachment list
into the `attachment_to_parent` dict and the `attachment_keys` dict,
skipping attachments with a falsy key or parent, and assigning (Python
dict semantics: later assignments overwrite) the attachment key of every
pdf-matching attachment to its parent. -/
def buildAttachMapsGo :
    List (String × String) → List (String × String) → List RawAttachment →
    List (String × String) × List (String × String)
  | a2p, attKeys, [] => (a2p, attKeys)
  | a2p, attKeys, a :: rest =>
    if truthy a.key && truthy a.parentItem then
      let k := a.key.getD ""
      let p := a.parentItem.getD ""
      let a2p' := dictSet a2p k p
      let attKeys' := if pdfMatch a.contentType then dictSet attKeys p k else attKeys
      buildAttachMapsGo a2p' attKeys' rest
    else
      buildAttachMapsGo a2p attKeys rest

/-- The second loop of `_build_batch_data`: group each annotation under the
parent item of its owning attachment, preserving list order; annotations
whose attachment has no recorded parent are dropped. -/
def buildAnnMapGo (a2p : List (String × String)) :
    List (String × List RawAnnot) → List RawAnnot → List (String × List RawAnnot)
  | m, [] => m
  | m, ann :: rest =>
    match a2p.lookup ann.parentKey with
    | some p => buildAnnMapGo a2p (dictAppend m p ann) rest
    | none => buildAnnMapGo a2p m rest

/-- `_build_batch_data`'s index construction from the raw annotation and
attachment lists (the fetches themselves are in `buildBatchDataE`). -/
def buildBatchData (anns : List RawAnnot) (atts : List RawAttachment) : BatchData :=
  let maps := buildAttachMapsGo [] [] atts
  ⟨buildAnnMapGo maps.1 [] anns, maps.2⟩

/-- `_build_batch_data` including its two bulk remote fetches; a failing
fetch propagates as a run-level error. -/
def buildBatchDataE (remote : RemoteE) : Except String BatchData :=
  match remote.allAnnotationLists with
  | .error e => .error e
  | .ok anns =>
    match remote.allAttachments with
    | .error e => .error e
    | .ok atts => .ok (buildBatchData anns atts)

/-- The stored-artifact annotation count of `_sync_single_item_batch`:
extract the annotations section and count the `"- <mark class="` markers
(a falsy section counts as 0). -/
def annotCountOf (env : Env) (content : String) : Nat :=
  match truthyStr (env.extractAnnotations content) with
  | some s => pyCount annotMarker.toList s.toList
  | none => 0

/-- The `item_version_changed` signal: stored version strictly below the
incoming remote version. -/
def versionAdvanced (st : ItemState) (item : Item) : Bool :=
  decide (st.zoteroVersion < item.version)

/-- The `annotations_changed` signal: with a (truthy) existing artifact,
compare the marker count against the incoming annotation count; with no
artifact, changed iff any annotation is incoming. -/
def annotationsChangedB (env : Env) (files : Files) (citationKey : String)
    (annCount : Nat) : Bool :=
  match truthyStr (files.lookup citationKey) with
  | some content => annotCountOf env content != annCount
  | none => decide (0 < annCount)

/-- The render-and-persist tail of `_sync_single_item_batch`: resolve the
attachment key from batch data, preserve the notes section of the existing
artifact on updates, render, write, hash, and build the fresh state row
(with the raw payload cached for template-only re-renders).  A raised
render is reported through `err` and performs no write and no upsert. -/
def renderPhase (env : Env) (libId : String) (batch : BatchData)
    (itemData : RawItem) (item : Item) (anns : List RawAnnot) (annCount : Nat)
    (isUpdate : Bool) (existingContent : Option String) : StepOut :=
  let attachmentKey := batch.attachmentKeys.lookup item.key
  let preservedNotes :=
    if isUpdate then existingContent.bind env.extractNotes else none
  match env.render item anns libId preservedNotes attachmentKey with
  | .error e =>
    { processedInc := 1, skippedInc := 0, createdInc := 0, updatedInc := 0,
      annotationsInc := annCount, renderCalled := true, err := some e,
      written := none, upsert := none }
  | .ok markdown =>
    let path := env.writePath item.citationKey
    let hash := env.contentHash markdown
    let st : ItemState :=
      ⟨item.key, item.citationKey, item.itemType, item.version, path,
        "active", hash⟩
    { processedInc := 1, skippedInc := 0,
      createdInc := if isUpdate then 0 else 1,
      updatedInc := if isUpdate then 1 else 0,
      annotationsInc := annCount, renderCalled := true, err := none,
      written := some (item.citationKey, markdown),
      upsert := some (st, itemData) }

/-- `_sync_single_item_batch`: parse (skip, not an error, when no citation
key), look up the existing state row, resolve annotations from batch data,
and — unless force-rerender is set or a change signal fired — skip with no
render, no write and no state mutation; otherwise render and persist. -/
def syncStepB (env : Env) (libId : String) (batch : BatchData) (db : Db)
    (files : Files) (itemData : RawItem) (forceRerender : Bool) : StepOut :=
  match parseItem itemData with
  | none =>
    { processedInc := 1, skippedInc := 1, createdInc := 0, updatedInc := 0,
      annotationsInc := 0, renderCalled := false, err := none,
      written := none, upsert := none }
  | some item =>
    let existing := db.getItemState item.key
    let anns := (batch.annotationsByItem.lookup item.key).getD []
    let annCount := anns.length
    match existing with
    | some st =>
      let existingContent := truthyStr (files.lookup item.citationKey)
      if !forceRerender && !(versionAdvanced st item)
          && !(annotationsChangedB env files item.citationKey annCount) then
        { processedInc := 1, skippedInc := 0, createdInc := 0, updatedInc := 0,
          annotationsInc := annCount, renderCalled := false, err := none,
          written := none, upsert := none }
      else
        renderPhase env libId batch itemData item anns annCount true existingContent
    | none =>
      renderPhase env libId batch itemData item anns annCount false none

/-- How the orchestrator's fan-out accounts one per-item outcome: apply
the counter increments, append the formatted error string (message format
of the `full_sync` / `incremental_sync` catch blocks), apply the upsert to
the store and the write to the file layer. -/
def applyStep (key : String) (o : StepOut) (r : SyncResultR) (db : Db)
    (files : Files) : SyncResultR × Db × Files :=
  let r' : SyncResultR :=
    { totalItemsProcessed := r.totalItemsProcessed + o.processedInc
      itemsCreated := r.itemsCreated + o.createdInc
      itemsUpdated := r.itemsUpdated + o.updatedInc
      itemsRemoved := r.itemsRemoved
      itemsSkipped := r.itemsSkipped + o.skippedInc
      annotationsSynced := r.annotationsSynced + o.annotationsInc
      errors := r.errors ++ (match o.err with
        | some e => ["Error syncing item " ++ key ++ ": " ++ e]
        | none => []) }
  let db' := match o.upsert with
    | some (st, raw) => db.upsertItem st (some raw)
    | none => db
  let files' := match o.written with
    | some (ck, md) => dictSet files ck md
    | none => files
  (r', db', files')

/-- The per-item fan-out of `full_sync` / `incremental_sync`: each raw item
is reconciled exactly once by `syncStepB`, its outcome folded into the
shared result, store and files (one serialization of the bounded pool;
distinct items touch distinct keys, so the claims proved below do not
depend on this order). -/
def runItems (env : Env) (libId : String) (batch : BatchData) (force : Bool) :
    List RawItem → SyncResultR → Db → Files → ItemsPhase
  | [], r, db, files => ⟨r, db, files, []⟩
  | it :: rest, r, db, files =>
    let o := syncStepB env libId batch db files it force
    let s := applyStep it.key o r db files
    let rec' := runItems env libId batch force rest s.1 s.2.1 s.2.2
    ⟨rec'.result, rec'.db, rec'.files, (it.key, o) :: rec'.trace⟩

/-- `_handle_deleted_item`: a key with no state row is a logged no-op
returning `false`; otherwise the artifact is handed to the file layer
(`handle_removed_item` on the citation key, reported in the third
component) and the row is marked removed. -/
def handleDeletedItem (env : Env) (db : Db) (k : String) :
    Db × Bool × Option String :=
  match db.getItemState k with
  | none => (db, false, none)
  | some st =>
    let _ := env.handleRemoved st.citationKey
    (db.markRemoved k, true, some st.citationKey)

/-- The loop of `_handle_removed_items` (full sync): handle each removed
key, counting only the successfully handled ones. -/
def handleRemovedLoop (env : Env) : Db → List String → Db × Nat
  | db, [] => (db, 0)
  | db, k :: rest =>
    let h := handleDeletedItem env db k
    let t := handleRemovedLoop env h.1 rest
    (t.1, (if h.2.1 then 1 else 0) + t.2)

/-- The deleted-items loop of `incremental_sync`: handle each reported
deleted key and increment `items_removed` once per reported key
(unconditionally — the handler's return value is ignored here). -/
def deletedLoopInc (env : Env) : Db → SyncResultR → List String →
    Db × SyncResultR
  | db, r, [] => (db, r)
  | db, r, k :: rest =>
    let h := handleDeletedItem env db k
    deletedLoopInc env h.1 { r with itemsRemoved := r.itemsRemoved + 1 } rest

/-- The final library-version commit (`update_library_version` /
`record_full_sync` on the external store): an injected failure raises,
aborting the run after the already-committed per-item rows. -/
def commitE (env : Env) (db : Db) (v : Nat) : Except String Db :=
  match env.commitFailure with
  | some e => .error e
  | none => .ok { db with lastLibraryVersion := some v }

/-- Record the active template's fingerprint and path identifier
(`record_template_version`). -/
def recordTemplate (env : Env) (db : Db) : Db :=
  { db with templateVersion := some ⟨env.templateHash, env.templatePath⟩ }

/-- `full_sync`: fetch version and full item set, prefetch batch data,
fan out per-item reconciliation with force-rerender set, compute removed
keys as tracked-minus-remote and handle them (`items_removed` is assigned
the handled count), then commit the library version and template version.
Any failure outside the per-item boundary propagates. -/
def fullSync (env : Env) (libId : String) (remote : RemoteE) (db : Db)
    (files : Files) : SyncOut :=
  match remote.libraryVersion with
  | .error e => ⟨db, files, .error e, [], []⟩
  | .ok current =>
    match remote.allItems with
    | .error e => ⟨db, files, .error e, [], []⟩
    | .ok items =>
      match buildBatchDataE remote with
      | .error e => ⟨db, files, .error e, [], []⟩
      | .ok batch =>
        let phase := runItems env libId batch true items emptyResult db files
        let zoteroKeys := items.map (·.key)
        let removedKeys :=
          phase.db.activeKeys.filter (fun k => !(zoteroKeys.contains k))
        let rem := handleRemovedLoop env phase.db removedKeys
        let r2 := { phase.result with itemsRemoved := rem.2 }
        match commitE env rem.1 current with
        | .error e => ⟨rem.1, phase.files, .error e, phase.trace, []⟩
        | .ok db3 =>
          ⟨recordTemplate env db3, phase.files, .ok r2, phase.trace, []⟩

/-- `_rerender_single_item` after its payload has been resolved: parse the
cached raw record (a parse failure is a logged no-op), resolve annotations
and attachment from batch data by the stored external key, preserve the
notes section, re-render with the new template, write, and upsert the row
keeping its stored version, path and status but refreshing the content
hash; a raised render surfaces as the item's error string. -/
def rerenderProceed (env : Env) (libId : String) (batch : BatchData)
    (files : Files) (st : ItemState) (raw : RawItem) (fetched : Bool) :
    RerenderOut :=
  match parseItem raw with
  | none => ⟨fetched, false, false, none, none, none, 0⟩
  | some item =>
    let anns := (batch.annotationsByItem.lookup st.zoteroKey).getD []
    let attachmentKey := batch.attachmentKeys.lookup st.zoteroKey
    let existingContent := truthyStr (files.lookup st.citationKey)
    let preservedNotes := existingContent.bind env.extractNotes
    match env.render item anns libId preservedNotes attachmentKey with
    | .error e => ⟨fetched, true, true, some e, none, none, 0⟩
    | .ok markdown =>
      let hash := env.contentHash markdown
      ⟨fetched, true, true, none, some (st.citationKey, markdown),
        some ({ st with contentHash := hash }, raw), 1⟩

/-- `_rerender_single_item`: read the cached payload from the store; if it
is absent, fall back to a remote fetch of the single item (a failing
fallback fetch records the item's error), then proceed. -/
def rerenderStep (env : Env) (libId : String) (remote : RemoteE)
    (batch : BatchData) (db : Db) (files : Files) (st : ItemState) :
    RerenderOut :=
  match db.getItemJson st.zoteroKey with
  | some raw => rerenderProceed env libId batch files st raw false
  | none =>
    match remote.fetchItem st.zoteroKey with
    | .error e =>
      ⟨true, false, false,
        some ("Failed to re-render " ++ st.citationKey ++ ": " ++ e),
        none, none, 0⟩
    | .ok raw => rerenderProceed env libId batch files st raw true

/-- Account one re-render outcome into the shared result, store and
files. -/
def applyRerender (o : RerenderOut) (r : SyncResultR) (db : Db)
    (files : Files) : SyncResultR × Db × Files :=
  let r' : SyncResultR :=
    { r with
      itemsUpdated := r.itemsUpdated + o.updatedInc
      errors := r.errors ++ (match o.err with
        | some e => [e]
        | none => []) }
  let db' := match o.upsert with
    | some (st, raw) => db.upsertItem st (some raw)
    | none => db
  let files' := match o.written with
    | some (ck, md) => dictSet files ck md
    | none => files
  (r', db', files')

/-- The re-render fan-out of `_full_rerender_all_items` over the active
state rows. -/
def runRerender (env : Env) (libId : String) (remote : RemoteE)
    (batch : BatchData) : List ItemState → SyncResultR → Db → Files →
    RerenderPhase
  | [], r, db, files => ⟨r, db, files, []⟩
  | st :: rest, r, db, files =>
    let o := rerenderStep env libId remote batch db files st
    let s := applyRerender o r db files
    let rec' := runRerender env libId remote batch rest s.1 s.2.1 s.2.2
    ⟨rec'.result, rec'.db, rec'.files, (st.zoteroKey, o) :: rec'.trace⟩

/-- `_full_rerender_all_items`: prefetch batch data (a failing prefetch
propagates), re-render every active row from its cached payload, and
record the new template version; the library version is not touched. -/
def fullRerenderAllItems (env : Env) (libId : String) (remote : RemoteE)
    (db : Db) (files : Files) : SyncOut :=
  match buildBatchDataE remote with
  | .error e => ⟨db, files, .error e, [], []⟩
  | .ok batch =>
    let actives := db.activeItems
    let phase := runRerender env libId remote batch actives emptyResult db files
    ⟨recordTemplate env phase.db, phase.files, .ok phase.result, [], phase.trace⟩

/-- `incremental_sync`: the mode decision table in source order (no prior
version → full sync; template changed → full re-render; version unchanged
→ empty result; gap above 1000 → full sync), then the delta path: fetch
modified items, prefetch batch data, fan out reconciliation, handle the
reported deletions, and commit the new library and template versions.
Failures outside the per-item boundary propagate. -/
def incrementalSync (env : Env) (libId : String) (remote : RemoteE) (db : Db)
    (files : Files) : SyncOut :=
  match db.lastLibraryVersion with
  | none => fullSync env libId remote db files
  | some lastV =>
    match remote.libraryVersion with
    | .error e => ⟨db, files, .error e, [], []⟩
    | .ok current =>
      if hasTemplateChanged env.templateHash env.templatePath db.templateVersion then
        fullRerenderAllItems env libId remote db files
      else if current = lastV then
        ⟨db, files, .ok emptyResult, [], []⟩
      else if (current : Int) - (lastV : Int) > 1000 then
        fullSync env libId remote db files
      else
        match remote.itemsSince lastV with
        | .error e => ⟨db, files, .error e, [], []⟩
        | .ok modified =>
          match buildBatchDataE remote with
          | .error e => ⟨db, files, .error e, [], []⟩
          | .ok batch =>
            let phase := runItems env libId batch false modified emptyResult db files
            match remote.deletedSince lastV with
            | .error e => ⟨phase.db, phase.files, .error e, phase.trace, []⟩
            | .ok deletedKeys =>
              let d := deletedLoopInc env phase.db phase.result deletedKeys
              match commitE env d.1 current with
              | .error e => ⟨d.1, phase.files, .error e, phase.trace, []⟩
              | .ok db3 =>
                ⟨recordTemplate env db3, phase.files, .ok d.2, phase.trace, []⟩

/-- Stated from the spec's words, for comparison with the source's
`buildBatchData`: the key of the FIRST attachment in list order that has
the given parent and a pdf-matching content type. -/
def firstPdfFor (atts : List RawAttachment) (p : String) : Option String :=
  ((atts.filter (fun a =>
    truthy a.key && truthy a.parentItem && a.parentItem == some p
      && pdfMatch a.contentType)).head?).bind (·.key)

/-- The key of the LAST attachment in list order that has the given parent
and a pdf-matching content type — what the source's dict-overwrite
semantics actually record. -/
def lastPdfFor : List RawAttachment → String → Option String
  | [], _ => none
  | a :: rest, p =>
    match lastPdfFor rest p with
    | some k => some k
    | none =>
      if truthy a.key && truthy a.parentItem && a.parentItem == some p
          && pdfMatch a.contentType then a.key
      else none

/-! ### Shared helper lemmas -/

theorem lookup_dictSet_self {α : Type} (m : List (String × α)) (k : String)
    (v : α) : (dictSet m k v).lookup k = some v := by
  induction m with
  | nil => simp [dictSet, List.lookup]
  | cons p rest ih =>
    obtain ⟨k', v'⟩ := p
    by_cases h : k' = k
    · subst h
      simp [dictSet, List.lookup]
    · simp only [dictSet, if_neg h, List.lookup]
      cases hb : (k == k') with
      | true => exact absurd (eq_of_beq hb).symm h
      | false => exact ih

theorem lookup_dictSet_ne {α : Type} (m : List (String × α)) (k k' : String)
    (v : α) (h : k' ≠ k) : (dictSet m k v).lookup k' = m.lookup k' := by
  induction m with
  | nil =>
    simp only [dictSet, List.lookup]
    cases hb : (k' == k) with
    | true => exact absurd (eq_of_beq hb) h
    | false => rfl
  | cons p rest ih =>
    obtain ⟨a, b⟩ := p
    by_cases ha : a = k
    · subst ha
      simp only [dictSet, if_pos rfl, List.lookup]
      cases hb : (k' == a) with
      | true => exact absurd (eq_of_beq hb) h
      | false => rfl
    · simp only [dictSet, if_neg ha, List.lookup]
      cases hb : (k' == a) with
      | true => rfl
      | false => exact ih

theorem renderPhase_skippedInc (env : Env) (libId : String) (batch : BatchData)
    (itemData : RawItem) (item : Item) (anns : List RawAnnot) (annCount : Nat)
    (isUpdate : Bool) (existingContent : Option String) :
    (renderPhase env libId batch itemData item anns annCount isUpdate
      existingContent).skippedInc = 0 := by
  simp only [renderPhase]
  split <;> rfl

theorem renderPhase_processedInc (env : Env) (libId : String) (batch : BatchData)
    (itemData : RawItem) (item : Item) (anns : List RawAnnot) (annCount : Nat)
    (isUpdate : Bool) (existingContent : Option String) :
    (renderPhase env libId batch itemData item anns annCount isUpdate
      existingContent).processedInc = 1 := by
  simp only [renderPhase]
  split <;> rfl

theorem renderPhase_annotationsInc (env : Env) (libId : String) (batch : BatchData)
    (itemData : RawItem) (item : Item) (anns : List RawAnnot) (annCount : Nat)
    (isUpdate : Bool) (existingContent : Option String) :
    (renderPhase env libId batch itemData item anns annCount isUpdate
      existingContent).annotationsInc = annCount := by
  simp only [renderPhase]
  split <;> rfl

/-- Skip behaviour of `_sync_single_item_batch`: under the unchanged
conditions the step returns the silent outcome (processed and annotation
total only). -/
theorem syncStepB_unchanged_skip
    (env : Env) (libId : String) (batch : BatchData) (db : Db) (files : Files)
    (itemData : RawItem) (item : Item) (st : ItemState) (content : String)
    (hparse : parseItem itemData = some item)
    (hst : db.getItemState item.key = some st)
    (hver : item.version ≤ st.zoteroVersion)
    (hcontent : truthyStr (files.lookup item.citationKey) = some content)
    (hcount : annotCountOf env content
      = ((batch.annotationsByItem.lookup item.key).getD []).length) :
    syncStepB env libId batch db files itemData false =
      { processedInc := 1, skippedInc := 0, createdInc := 0, updatedInc := 0,
        annotationsInc := ((batch.annotationsByItem.lookup item.key).getD []).length,
        renderCalled := false, err := none, written := none, upsert := none } := by
  have hv : versionAdvanced st item = false := by
    simp only [versionAdvanced, decide_eq_false_iff_not]
    omega
  have hac : annotationsChangedB env files item.citationKey
      ((batch.annotationsByItem.lookup item.key).getD []).length = false := by
    simp only [annotationsChangedB, hcontent, hcount, bne_self_eq_false]
  simp [syncStepB, hparse, hst, hv, hac]

/-- The skipped counter is incremented exactly by the no-citation-key
path: every other path of `_sync_single_item_batch` leaves it at 0. -/
theorem syncStepB_skippedInc_eq (env : Env) (libId : String)
    (batch : BatchData) (db : Db) (files : Files) (raw : RawItem)
    (force : Bool) :
    (syncStepB env libId batch db files raw force).skippedInc
      = if parseItem raw = none then 1 else 0 := by
  cases hp : parseItem raw with
  | none => simp [syncStepB, hp]
  | some it =>
    rw [if_neg (by simp [hp])]
    simp only [syncStepB, hp]
    cases db.getItemState it.key with
    | none => exact renderPhase_skippedInc _ _ _ _ _ _ _ _ _
    | some st =>
      repeat' split
      all_goals first
        | rfl
        | exact renderPhase_skippedInc _ _ _ _ _ _ _ _ _

/-- The render tail always reports the render call; absence of a per-item
error implies both the write and the upsert happened. -/
theorem renderPhase_effects (env : Env) (libId : String) (batch : BatchData)
    (itemData : RawItem) (item : Item) (anns : List RawAnnot) (annCount : Nat)
    (isUpdate : Bool) (existingContent : Option String) :
    (renderPhase env libId batch itemData item anns annCount isUpdate
      existingContent).renderCalled = true ∧
    ((renderPhase env libId batch itemData item anns annCount isUpdate
        existingContent).err = none →
      (renderPhase env libId batch itemData item anns annCount isUpdate
        existingContent).upsert.isSome = true ∧
      (renderPhase env libId batch itemData item anns annCount isUpdate
        existingContent).written.isSome = true) := by
  simp only [renderPhase]
  split <;> simp

/-- Under force-rerender, every parse-successful item reaches the render
call, and when the render does not raise, the artifact write and the
state-row upsert both happen. -/
theorem syncStepB_force_renders (env : Env) (libId : String)
    (batch : BatchData) (db : Db) (files : Files) (raw : RawItem)
    (hskip : (syncStepB env libId batch db files raw true).skippedInc = 0) :
    (syncStepB env libId batch db files raw true).renderCalled = true ∧
    ((syncStepB env libId batch db files raw true).err = none →
      (syncStepB env libId batch db files raw true).upsert.isSome = true ∧
      (syncStepB env libId batch db files raw true).written.isSome = true) := by
  cases hp : parseItem raw with
  | none => rw [syncStepB_skippedInc_eq] at hskip; simp [hp] at hskip
  | some it =>
    simp only [syncStepB, hp]
    cases db.getItemState it.key with
    | none => exact renderPhase_effects _ _ _ _ _ _ _ _ _
    | some st =>
      simp only [Bool.not_true, Bool.false_and, Bool.false_eq_true, if_false]
      exact renderPhase_effects _ _ _ _ _ _ _ _ _

/-- The fan-out produces exactly one trace entry per work-list record. -/
theorem runItems_trace_length (env : Env) (libId : String) (batch : BatchData)
    (force : Bool) (items : List RawItem) : ∀ (r : SyncResultR) (db : Db)
    (files : Files),
    (runItems env libId batch force items r db files).trace.length
      = items.length := by
  induction items with
  | nil => intro r db files; rfl
  | cons it rest ih =>
    intro r db files
    simp only [runItems, List.length_cons]
    rw [ih]

/-- The fan-out's trace lists the work-list keys in order. -/
theorem runItems_trace_keys (env : Env) (libId : String) (batch : BatchData)
    (force : Bool) (items : List RawItem) : ∀ (r : SyncResultR) (db : Db)
    (files : Files),
    (runItems env libId batch force items r db files).trace.map Prod.fst
      = items.map (·.key) := by
  induction items with
  | nil => intro r db files; rfl
  | cons it rest ih =>
    intro r db files
    simp only [runItems, List.map_cons]
    rw [ih]

/-- Every trace entry of the fan-out is the outcome of `syncStepB` on its
work-list record (at the store and files current when it ran). -/
theorem runItems_trace_mem (env : Env) (libId : String) (batch : BatchData)
    (force : Bool) (items : List RawItem) : ∀ (r : SyncResultR) (db : Db)
    (files : Files) (p : String × StepOut),
    p ∈ (runItems env libId batch force items r db files).trace →
    ∃ (it : RawItem) (db' : Db) (files' : Files),
      p = (it.key, syncStepB env libId batch db' files' it force) := by
  induction items with
  | nil => intro r db files p hp; cases hp
  | cons it rest ih =>
    intro r db files p hp
    simp only [runItems, List.mem_cons] at hp
    cases hp with
    | inl h => exact ⟨it, db, files, h⟩
    | inr h => exact ih _ _ _ p h

/-- `full_sync` fans out over exactly the fetched items, with force-rerender
set, before the removal and commit phases (which do not touch the trace). -/
theorem fullSync_itemTrace (env : Env) (libId : String) (remote : RemoteE)
    (db : Db) (files : Files) (v : Nat) (items : List RawItem)
    (anns : List RawAnnot) (atts : List RawAttachment)
    (hv : remote.libraryVersion = .ok v)
    (hi : remote.allItems = .ok items)
    (ha : remote.allAnnotationLists = .ok anns)
    (hb : remote.allAttachments = .ok atts) :
    (fullSync env libId remote db files).itemTrace
      = (runItems env libId (buildBatchData anns atts) true items emptyResult
          db files).trace := by
  simp only [fullSync, hv, hi, buildBatchDataE, ha, hb]
  cases hc : env.commitFailure <;> simp [commitE, hc]

/-! ### Concrete fixtures used by the witness theorems -/

/-- A renderer/file environment whose artifacts carry no annotation
markers. -/
def wEnvNoMarks : Env :=
  ⟨fun _ => some "", fun _ => none, fun _ _ _ _ _ => .ok "md",
    fun _ => "h", fun ck => ck ++ ".md", fun _ => none, "th", "built-in", none⟩

/-- A renderer/file environment whose artifacts carry exactly two
annotation markers. -/
def wEnvTwoMarks : Env :=
  ⟨fun _ => some (annotMarker ++ annotMarker), fun _ => none,
    fun _ _ _ _ _ => .ok "md", fun _ => "h", fun ck => ck ++ ".md",
    fun _ => none, "th", "built-in", none⟩

/-- A tracked state row at version 10. -/
def wStK1 : ItemState :=
  ⟨"K1", "smith2020", "book", 10, "smith2020.md", "active", "h"⟩

/-- A store tracking exactly that row. -/
def wDbK1 : Db := ⟨[("K1", ⟨wStK1, none⟩)], some 5, none⟩

/-- The raw incoming record for the same item, still at version 10. -/
def wRawK1 : RawItem := ⟨"K1", 10, some "smith2020", "book"⟩

/-- Its parse. -/
def wItemK1 : Item := ⟨"K1", 10, "smith2020", "book"⟩

/-- One existing artifact. -/
def wFiles : Files := [("smith2020", "content")]

/-- Prefetched batch data carrying three annotations for the item. -/
def wBatch3 : BatchData := ⟨[("K1", [⟨"n1", "a"⟩, ⟨"n2", "a"⟩, ⟨"n3", "a"⟩])], []⟩

/-- Prefetched batch data carrying two annotations for the item. -/
def wBatch2 : BatchData := ⟨[("K1", [⟨"n1", "a"⟩, ⟨"n2", "a"⟩])], []⟩

/-! ### Claim theorems -/

/-- C1: with an existing state row, force-rerender false, the incoming
version not past the stored version, and the marker count of the existing
artifact equal to the incoming annotation count, `_sync_single_item_batch`
skips the item: no render call, no artifact write, no state-row upsert
(only the processed counter and the annotations total are touched). -/
theorem c1_unchanged_item_is_skipped
    (env : Env) (libId : String) (batch : BatchData) (db : Db) (files : Files)
    (itemData : RawItem) (item : Item) (st : ItemState) (content : String)
    (hparse : parseItem itemData = some item)
    (hst : db.getItemState item.key = some st)
    (hver : item.version ≤ st.zoteroVersion)
    (hcontent : truthyStr (files.lookup item.citationKey) = some content)
    (hcount : annotCountOf env content
      = ((batch.annotationsByItem.lookup item.key).getD []).length) :
    syncStepB env libId batch db files itemData false =
      { processedInc := 1, skippedInc := 0, createdInc := 0, updatedInc := 0,
        annotationsInc := ((batch.annotationsByItem.lookup item.key).getD []).length,
        renderCalled := false, err := none, written := none, upsert := none } :=
  syncStepB_unchanged_skip env libId batch db files itemData item st content
    hparse hst hver hcontent hcount

/-- Witness for C1: an item at stored version 10, incoming version 10, with
zero incoming annotations and zero markers in the existing artifact, is
skipped untouched. -/
theorem c1_unchanged_item_is_skipped_witness :
    parseItem wRawK1 = some wItemK1 ∧
    wDbK1.getItemState "K1" = some wStK1 ∧
    annotCountOf wEnvNoMarks "content" = 0 ∧
    syncStepB wEnvNoMarks "lib" ⟨[], []⟩ wDbK1 wFiles wRawK1 false =
      { processedInc := 1, skippedInc := 0, createdInc := 0, updatedInc := 0,
        annotationsInc := 0, renderCalled := false, err := none,
        written := none, upsert := none } :=
  ⟨rfl, rfl, rfl,
    c1_unchanged_item_is_skipped wEnvNoMarks "lib" ⟨[], []⟩ wDbK1 wFiles wRawK1
      wItemK1 wStK1 "content" rfl rfl (Nat.le_refl 10) rfl rfl⟩

/-- C7: with an existing state row, if the incoming version is strictly
greater than the stored version or the incoming annotation count differs
from the artifact's marker count, the item is rendered, written, its state
row upserted, and counted as updated exactly once in the pass (the fan-out
gives every work-list record exactly one outcome). -/
theorem c7_changed_item_is_updated
    (env : Env) (libId : String) (batch : BatchData) (db : Db) (files : Files)
    (itemData : RawItem) (item : Item) (st : ItemState)
    (hparse : parseItem itemData = some item)
    (hst : db.getItemState item.key = some st)
    (hch : versionAdvanced st item = true
      ∨ annotationsChangedB env files item.citationKey
          ((batch.annotationsByItem.lookup item.key).getD []).length = true)
    (hrender : ∀ a n att, (env.render item a libId n att).isOk = true) :
    (syncStepB env libId batch db files itemData false).renderCalled = true ∧
    (syncStepB env libId batch db files itemData false).err = none ∧
    (syncStepB env libId batch db files itemData false).written.isSome = true ∧
    (syncStepB env libId batch db files itemData false).upsert.isSome = true ∧
    (syncStepB env libId batch db files itemData false).updatedInc = 1 ∧
    (syncStepB env libId batch db files itemData false).createdInc = 0 ∧
    (∀ (items : List RawItem) (r0 : SyncResultR) (db0 : Db) (files0 : Files),
      (runItems env libId batch false items r0 db0 files0).trace.length
        = items.length) := by
  have hcond : (!false && !(versionAdvanced st item)
      && !(annotationsChangedB env files item.citationKey
        ((batch.annotationsByItem.lookup item.key).getD []).length)) = false := by
    rcases hch with h | h <;> simp [h]
  have hstep : syncStepB env libId batch db files itemData false
      = renderPhase env libId batch itemData item
          ((batch.annotationsByItem.lookup item.key).getD [])
          ((batch.annotationsByItem.lookup item.key).getD []).length true
          (truthyStr (files.lookup item.citationKey)) := by
    simp only [syncStepB, hparse, hst, hcond, Bool.false_eq_true, if_false]
  rw [hstep]
  cases hr : env.render item ((batch.annotationsByItem.lookup item.key).getD [])
      libId ((truthyStr (files.lookup item.citationKey)).bind env.extractNotes)
      (batch.attachmentKeys.lookup item.key) with
  | error e =>
    have hok := hrender ((batch.annotationsByItem.lookup item.key).getD [])
      ((truthyStr (files.lookup item.citationKey)).bind env.extractNotes)
      (batch.attachmentKeys.lookup item.key)
    rw [hr] at hok
    simp [Except.isOk, Except.toBool] at hok
  | ok md =>
    refine ⟨?_, ?_, ?_, ?_, ?_, ?_, runItems_trace_length env libId batch false⟩
      <;> simp [renderPhase, hr]

/-- Witness for C7 at the spec's own example: stored version 10, incoming
version 10, two markers in the existing artifact, three incoming
annotations — re-rendered and counted as updated. -/
theorem c7_changed_item_is_updated_witness :
    annotationsChangedB wEnvTwoMarks wFiles "smith2020" 3 = true ∧
    (syncStepB wEnvTwoMarks "lib" wBatch3 wDbK1 wFiles wRawK1
      false).updatedInc = 1 :=
  ⟨rfl,
    (c7_changed_item_is_updated wEnvTwoMarks "lib" wBatch3 wDbK1 wFiles wRawK1
      wItemK1 wStK1 rfl rfl (Or.inr rfl) (fun _ _ _ => rfl)).2.2.2.2.1⟩

/-- C10: a skipped-as-unchanged item still increments the processed
counter and contributes its annotation count to the run total, while the
created, updated and skipped counters stay untouched; the skipped counter
is incremented exactly for records with no derivable citation key. -/
theorem c10_skip_counter_accounting
    (env : Env) (libId : String) (batch : BatchData) (db : Db) (files : Files)
    (itemData : RawItem) (item : Item) (st : ItemState) (content : String)
    (hparse : parseItem itemData = some item)
    (hst : db.getItemState item.key = some st)
    (hver : item.version ≤ st.zoteroVersion)
    (hcontent : truthyStr (files.lookup item.citationKey) = some content)
    (hcount : annotCountOf env content
      = ((batch.annotationsByItem.lookup item.key).getD []).length) :
    ((syncStepB env libId batch db files itemData false).processedInc = 1 ∧
     (syncStepB env libId batch db files itemData false).annotationsInc
       = ((batch.annotationsByItem.lookup item.key).getD []).length ∧
     (syncStepB env libId batch db files itemData false).createdInc = 0 ∧
     (syncStepB env libId batch db files itemData false).updatedInc = 0 ∧
     (syncStepB env libId batch db files itemData false).skippedInc = 0) ∧
    (∀ (env2 : Env) (libId2 : String) (batch2 : BatchData) (db2 : Db)
        (files2 : Files) (raw : RawItem) (force : Bool),
      (syncStepB env2 libId2 batch2 db2 files2 raw force).skippedInc
        = if parseItem raw = none then 1 else 0) := by
  refine ⟨?_, fun env2 libId2 batch2 db2 files2 raw force =>
    syncStepB_skippedInc_eq env2 libId2 batch2 db2 files2 raw force⟩
  rw [syncStepB_unchanged_skip env libId batch db files itemData item st content
    hparse hst hver hcontent hcount]
  exact ⟨rfl, rfl, rfl, rfl, rfl⟩

/-- Witness for C10 at a concrete unchanged item carrying two annotations:
processed rises, the annotation total absorbs 2, and created, updated and
skipped stay 0. -/
theorem c10_skip_counter_accounting_witness :
    ((syncStepB wEnvTwoMarks "lib" wBatch2 wDbK1 wFiles wRawK1
        false).processedInc = 1 ∧
     (syncStepB wEnvTwoMarks "lib" wBatch2 wDbK1 wFiles wRawK1
        false).annotationsInc = 2 ∧
     (syncStepB wEnvTwoMarks "lib" wBatch2 wDbK1 wFiles wRawK1
        false).createdInc = 0 ∧
     (syncStepB wEnvTwoMarks "lib" wBatch2 wDbK1 wFiles wRawK1
        false).updatedInc = 0 ∧
     (syncStepB wEnvTwoMarks "lib" wBatch2 wDbK1 wFiles wRawK1
        false).skippedInc = 0) ∧
    (∀ (env2 : Env) (libId2 : String) (batch2 : BatchData) (db2 : Db)
        (files2 : Files) (raw : RawItem) (force : Bool),
      (syncStepB env2 libId2 batch2 db2 files2 raw force).skippedInc
        = if parseItem raw = none then 1 else 0) :=
  c10_skip_counter_accounting wEnvTwoMarks "lib" wBatch2 wDbK1 wFiles wRawK1
    wItemK1 wStK1 "content" rfl rfl (Nat.le_refl 10) rfl rfl

/-- A remote library with one item (the fixture record) and no annotations,
attachments or deltas. -/
def wRemoteFull : RemoteE :=
  ⟨.ok 7, .ok [wRawK1], fun _ => .ok [], fun _ => .ok [], .ok [], .ok [],
    fun _ => .error "net"⟩

/-- A remote library at version 6 with no items and no deltas. -/
def wRemoteInc : RemoteE :=
  ⟨.ok 6, .ok [], fun _ => .ok [], fun _ => .ok [], .ok [], .ok [],
    fun _ => .error "net"⟩

/-- A bare store recorded at library version 5 with no rows. -/
def wDbBare : Db := ⟨[], some 5, none⟩

/-- The one-item remote library at version 2000 (a large version gap over
a store recorded at version 2). -/
def wRemoteGap : RemoteE := { wRemoteFull with libraryVersion := .ok 2000 }

/-- C5: full sync reconciles every fetched item with force-rerender set:
the fan-out trace covers exactly the fetched keys, and every
parse-successful entry reaches the render call and — when the render does
not raise — the artifact write and the state-row upsert, regardless of
stored version or annotation count. -/
theorem c5_full_sync_forces_rerender
    (env : Env) (libId : String) (remote : RemoteE) (db : Db) (files : Files)
    (v : Nat) (items : List RawItem) (anns : List RawAnnot)
    (atts : List RawAttachment)
    (hv : remote.libraryVersion = .ok v)
    (hi : remote.allItems = .ok items)
    (ha : remote.allAnnotationLists = .ok anns)
    (hb : remote.allAttachments = .ok atts) :
    (fullSync env libId remote db files).itemTrace.map Prod.fst
      = items.map (·.key) ∧
    ∀ p ∈ (fullSync env libId remote db files).itemTrace,
      p.2.skippedInc = 0 →
      p.2.renderCalled = true ∧
      (p.2.err = none →
        p.2.upsert.isSome = true ∧ p.2.written.isSome = true) := by
  rw [fullSync_itemTrace env libId remote db files v items anns atts hv hi ha hb]
  refine ⟨runItems_trace_keys env libId (buildBatchData anns atts) true items
    emptyResult db files, fun p hp hskip => ?_⟩
  obtain ⟨it, db', files', rfl⟩ :=
    runItems_trace_mem env libId (buildBatchData anns atts) true items
      emptyResult db files p hp
  exact syncStepB_force_renders env libId (buildBatchData anns atts) db' files'
    it hskip

/-- Witness for C5: a full sync over a library holding the fixture item
(unchanged: same version, same annotation count) still traces exactly that
key through a forced render. -/
theorem c5_full_sync_forces_rerender_witness :
    (fullSync wEnvNoMarks "lib" wRemoteFull wDbK1 wFiles).itemTrace.map
      Prod.fst = ["K1"] ∧
    ∀ p ∈ (fullSync wEnvNoMarks "lib" wRemoteFull wDbK1 wFiles).itemTrace,
      p.2.skippedInc = 0 →
      p.2.renderCalled = true ∧
      (p.2.err = none →
        p.2.upsert.isSome = true ∧ p.2.written.isSome = true) :=
  c5_full_sync_forces_rerender wEnvNoMarks "lib" wRemoteFull wDbK1 wFiles
    7 [wRawK1] [] [] rfl rfl rfl rfl

/-- C2: the mode-selection decision table of `incremental_sync`, in source
order: no recorded version delegates to full sync; with no template change,
an unchanged remote version returns the empty result as a success; a gap
above 1000 delegates to full sync without ever consulting the incremental
fetch path (the outcome is independent of `itemsSince`). -/
theorem c2_mode_selection
    (env : Env) (libId : String) (remote : RemoteE) (db : Db) (files : Files) :
    (db.lastLibraryVersion = none →
      incrementalSync env libId remote db files
        = fullSync env libId remote db files) ∧
    (∀ lv v, db.lastLibraryVersion = some lv →
      hasTemplateChanged env.templateHash env.templatePath db.templateVersion
        = false →
      remote.libraryVersion = .ok v → v = lv →
      incrementalSync env libId remote db files
        = ⟨db, files, .ok emptyResult, [], []⟩) ∧
    (∀ lv v, db.lastLibraryVersion = some lv →
      hasTemplateChanged env.templateHash env.templatePath db.templateVersion
        = false →
      remote.libraryVersion = .ok v → (v : Int) - (lv : Int) > 1000 →
      ∀ f, incrementalSync env libId { remote with itemsSince := f } db files
        = fullSync env libId remote db files) := by
  refine ⟨fun h => by simp only [incrementalSync, h],
    fun lv v hl ht hv he => ?_, fun lv v hl ht hv hg f => ?_⟩
  · subst he
    simp [incrementalSync, hl, hv, ht]
  · have hne : ¬ (v = lv) := by
      intro h
      subst h
      omega
    have heq : fullSync env libId { remote with itemsSince := f } db files
        = fullSync env libId remote db files := rfl
    rw [← heq]
    simp [incrementalSync, hl, hv, ht, hne, hg]

/-- Witness for C2, exercising all three rows of the decision table on
concrete stores: no recorded version; equal versions; and a gap of more
than 1000 with a poisoned incremental fetch path. -/
theorem c2_mode_selection_witness :
    (incrementalSync wEnvNoMarks "lib" wRemoteInc ⟨[], none, none⟩ []
      = fullSync wEnvNoMarks "lib" wRemoteInc ⟨[], none, none⟩ []) ∧
    (incrementalSync wEnvNoMarks "lib" wRemoteInc ⟨[], some 6, none⟩ []
      = ⟨⟨[], some 6, none⟩, [], .ok emptyResult, [], []⟩) ∧
    (incrementalSync wEnvNoMarks "lib"
        { wRemoteGap with itemsSince := fun _ => .error "poison" }
        ⟨[], some 2, none⟩ []
      = fullSync wEnvNoMarks "lib" wRemoteGap ⟨[], some 2, none⟩ []) :=
  ⟨(c2_mode_selection wEnvNoMarks "lib" wRemoteInc ⟨[], none, none⟩ []).1 rfl,
    (c2_mode_selection wEnvNoMarks "lib" wRemoteInc ⟨[], some 6, none⟩ []).2.1
      6 6 rfl rfl rfl rfl,
    (c2_mode_selection wEnvNoMarks "lib" wRemoteGap
      ⟨[], some 2, none⟩ []).2.2 2 2000 rfl rfl rfl (by decide)
      (fun _ => .error "poison")⟩

/-- C9: after a run that committed library version `v` and recorded a
template version the detector reports unchanged, a second incremental sync
against the unchanged remote is the empty no-op result — created, updated
and removed all zero. -/
theorem c9_incremental_idempotent
    (env : Env) (libId : String) (remote : RemoteE) (db : Db) (files : Files)
    (out1 : SyncOut) (r1 : SyncResultR) (v : Nat)
    (_h1 : incrementalSync env libId remote db files = out1)
    (_hok : out1.res = .ok r1)
    (hv : remote.libraryVersion = .ok v)
    (hcommit : out1.db.lastLibraryVersion = some v)
    (ht : hasTemplateChanged env.templateHash env.templatePath
      out1.db.templateVersion = false) :
    incrementalSync env libId remote out1.db out1.files
      = ⟨out1.db, out1.files, .ok emptyResult, [], []⟩ ∧
    emptyResult.itemsCreated = 0 ∧ emptyResult.itemsUpdated = 0 ∧
    emptyResult.itemsRemoved = 0 := by
  refine ⟨?_, rfl, rfl, rfl⟩
  simp [incrementalSync, hcommit, hv, ht]

/-- Witness for C9: the fixture store at version 5 syncs against the
remote at version 6, commits version 6 and the template version; the
second run is a no-op with zero counters. -/
theorem c9_incremental_idempotent_witness :
    incrementalSync wEnvNoMarks "lib" wRemoteInc wDbBare [] =
      ⟨⟨[], some 6, some ⟨"th", "built-in"⟩⟩, [], .ok emptyResult, [], []⟩ ∧
    incrementalSync wEnvNoMarks "lib" wRemoteInc
        ⟨[], some 6, some ⟨"th", "built-in"⟩⟩ [] =
      ⟨⟨[], some 6, some ⟨"th", "built-in"⟩⟩, [], .ok emptyResult, [], []⟩ :=
  ⟨rfl,
    (c9_incremental_idempotent wEnvNoMarks "lib" wRemoteInc wDbBare []
      ⟨⟨[], some 6, some ⟨"th", "built-in"⟩⟩, [], .ok emptyResult, [], []⟩
      emptyResult 6 rfl rfl rfl rfl rfl).1⟩

/-- A truthy optional string is a nonempty `some`. -/
theorem truthy_eq_true {o : Option String} (h : truthy o = true) :
    ∃ s, o = some s ∧ s ≠ "" := by
  cases o with
  | none => simp [truthy] at h
  | some s =>
    refine ⟨s, rfl, ?_⟩
    simpa [truthy] using h

/-- The attachment-keys dict built by `_build_batch_data` holds, for every
parent, the key of the last matching attachment when one exists, and
otherwise whatever the accumulator held. -/
theorem buildAttachMapsGo_lookup (p : String) (atts : List RawAttachment) :
    ∀ (a2p attKeys : List (String × String)),
    ((buildAttachMapsGo a2p attKeys atts).2).lookup p
      = match lastPdfFor atts p with
        | some k => some k
        | none => attKeys.lookup p := by
  induction atts with
  | nil => intro a2p attKeys; rfl
  | cons a rest ih =>
    intro a2p attKeys
    obtain ⟨akey, apar, act⟩ := a
    by_cases hg : (truthy akey && truthy apar) = true
    · obtain ⟨ka, hka, -⟩ :=
        truthy_eq_true (Bool.and_eq_true _ _ |>.mp hg).1
      obtain ⟨pa, hpa, -⟩ :=
        truthy_eq_true (Bool.and_eq_true _ _ |>.mp hg).2
      subst hka
      subst hpa
      by_cases hpdf : pdfMatch act = true
      · by_cases hpp : pa = p
        · subst hpp
          simp only [buildAttachMapsGo, lastPdfFor, hg, hpdf,
            Option.getD_some, beq_self_eq_true, Bool.and_true, Bool.true_and,
            if_true]
          rw [ih]
          cases lastPdfFor rest pa <;> simp [lookup_dictSet_self]
        · have hbeq : ((some pa : Option String) == some p) = false :=
            beq_eq_false_iff_ne.mpr (by simp [hpp])
          simp only [buildAttachMapsGo, lastPdfFor, hg, hpdf, hbeq,
            Option.getD_some, Bool.and_true, Bool.true_and, Bool.and_false,
            Bool.false_eq_true, if_true, if_false]
          rw [ih]
          cases lastPdfFor rest p <;>
            simp [lookup_dictSet_ne _ _ _ _ fun h => hpp h.symm]
      · have hpdf' : pdfMatch act = false := by simpa using hpdf
        simp only [buildAttachMapsGo, lastPdfFor, hg, hpdf',
          Bool.and_false, Bool.false_eq_true, if_true, if_false]
        rw [ih]
        cases lastPdfFor rest p <;> rfl
    · have hg' : (truthy akey && truthy apar) = false := by simpa using hg
      simp only [buildAttachMapsGo, lastPdfFor, hg', Bool.false_and,
        Bool.false_eq_true, if_false]
      rw [ih]
      cases lastPdfFor rest p <;> rfl

/-- C3 counterexample: two pdf attachments of the same parent in list
order `A1, A2`; the batch prefetcher records `A2` (the last), while the
claim's "first one found" is `A1`. -/
theorem c3_counterexample_last_match_recorded :
    (buildBatchData []
        [⟨some "A1", some "P", "application/pdf"⟩,
         ⟨some "A2", some "P", "application/pdf"⟩]).attachmentKeys.lookup "P"
      = some "A2" ∧
    firstPdfFor
        [⟨some "A1", some "P", "application/pdf"⟩,
         ⟨some "A2", some "P", "application/pdf"⟩] "P" = some "A1" ∧
    (some "A2" : Option String) ≠ some "A1" := by
  refine ⟨rfl, rfl, ?_⟩
  intro h
  exact absurd (Option.some.inj h) (by decide)

/-- C3 amended: for every raw attachment list and every parent, the batch
prefetcher records as the parent's primary attachment the LAST attachment
in list order with that parent and a pdf-matching content type (Python
dict assignment overwrites earlier matches); attachments with a falsy key
or parent are skipped, and a parent with no matching attachment is absent
from the map. -/
theorem c3_amended_primary_attachment_is_last_match
    (anns : List RawAnnot) (atts : List RawAttachment) (p : String) :
    (buildBatchData anns atts).attachmentKeys.lookup p = lastPdfFor atts p := by
  unfold buildBatchData
  rw [buildAttachMapsGo_lookup]
  cases lastPdfFor atts p <;> simp [List.lookup]

/-- Row-list form of `getItemState_isSome_markRemoved`. -/
theorem lookup_markRemoved_isSome (k k' : String) :
    ∀ (rows : List (String × DbRow)),
    (List.lookup k' (rows.map (fun p =>
        if p.1 = k then
          (p.1, { p.2 with state := { p.2.state with syncStatus := "removed" } })
        else p))).isSome
      = (List.lookup k' rows).isSome
  | [] => rfl
  | (a, b) :: rest => by
    by_cases ha : a = k
    · simp only [List.map_cons, if_pos (show (a, b).1 = k from ha)]
      cases hb : (k' == a) <;>
        simp [List.lookup, hb, lookup_markRemoved_isSome k k' rest]
    · simp only [List.map_cons, if_neg (show ¬ (a, b).1 = k from ha)]
      cases hb : (k' == a) <;>
        simp [List.lookup, hb, lookup_markRemoved_isSome k k' rest]

/-- Marking one key removed preserves which keys have a state row. -/
theorem getItemState_isSome_markRemoved (db : Db) (k k' : String) :
    ((db.markRemoved k).getItemState k').isSome
      = (db.getItemState k').isSome := by
  unfold Db.markRemoved Db.getItemState
  simpa using lookup_markRemoved_isSome k k' db.rows

/-- The incremental deleted-items loop adds exactly the number of reported
keys to the removed counter, whether or not each key was tracked. -/
theorem deletedLoopInc_removed (env : Env) (keys : List String) :
    ∀ (db : Db) (r : SyncResultR),
    (deletedLoopInc env db r keys).2.itemsRemoved
      = r.itemsRemoved + keys.length := by
  induction keys with
  | nil => intro db r; rfl
  | cons k rest ih =>
    intro db r
    simp only [deletedLoopInc, ih, List.length_cons]
    omega

/-- The incremental deleted-items loop records no errors. -/
theorem deletedLoopInc_errors (env : Env) (keys : List String) :
    ∀ (db : Db) (r : SyncResultR),
    (deletedLoopInc env db r keys).2.errors = r.errors := by
  induction keys with
  | nil => intro db r; rfl
  | cons k rest ih =>
    intro db r
    simp only [deletedLoopInc, ih]

/-- The full-sync removal loop counts exactly the keys that had a tracked
state row. -/
theorem handleRemovedLoop_count (env : Env) (keys : List String) :
    ∀ (db : Db),
    (handleRemovedLoop env db keys).2
      = (keys.filter (fun k' => (db.getItemState k').isSome)).length := by
  induction keys with
  | nil => intro db; rfl
  | cons k rest ih =>
    intro db
    simp only [handleRemovedLoop, List.filter_cons]
    cases h : db.getItemState k with
    | none =>
      simp only [handleDeletedItem, h, Option.isSome_none, Bool.false_eq_true,
        if_false, ih db]
      omega
    | some st =>
      simp only [handleDeletedItem, h, Option.isSome_some, if_true,
        ih (db.markRemoved k)]
      have hf : rest.filter
            (fun k' => ((db.markRemoved k).getItemState k').isSome)
          = rest.filter (fun k' => (db.getItemState k').isSome) :=
        List.filter_congr fun k' _ => by
          rw [getItemState_isSome_markRemoved]
      rw [hf]
      simp only [List.length_cons]
      omega

/-- A remote reporting one deleted key `K1` since last sync, with no
modified items. -/
def wRemoteDel : RemoteE :=
  ⟨.ok 6, .ok [], fun _ => .ok [], fun _ => .ok ["K1"], .ok [], .ok [],
    fun _ => .error "net"⟩

/-- C4 counterexample: an incremental run over a store with no state row
for the reported deleted key `K1` still ends with the removed counter at 1
(the loop increments it unconditionally), refuting "incremented only for
keys that had a tracked Item State row"; the no-op part (no state change,
no error) does hold. -/
theorem c4_counterexample_untracked_key_counted :
    wDbBare.getItemState "K1" = none ∧
    (incrementalSync wEnvNoMarks "lib" wRemoteDel wDbBare []).res
      = .ok { emptyResult with itemsRemoved := 1 } ∧
    (incrementalSync wEnvNoMarks "lib" wRemoteDel wDbBare []).db.rows = [] :=
  ⟨rfl, rfl, rfl⟩

/-- C4 amended: a deletion for an untracked key is a no-op on the store
with no file-layer call and (in both loops) no error recorded; a tracked
key is handed to the file layer and marked removed.  The full-sync
set-difference loop counts only keys that had a tracked row, but the
incremental-delta loop increments the removed counter once per reported
key, tracked or not. -/
theorem c4_amended_deletion_reconciliation
    (env : Env) (db : Db) (k : String) (st : ItemState) (r : SyncResultR)
    (keys : List String) :
    (db.getItemState k = none →
      handleDeletedItem env db k = (db, false, none)) ∧
    (db.getItemState k = some st →
      handleDeletedItem env db k
        = (db.markRemoved k, true, some st.citationKey)) ∧
    ((deletedLoopInc env db r keys).2.itemsRemoved
      = r.itemsRemoved + keys.length) ∧
    ((deletedLoopInc env db r keys).2.errors = r.errors) ∧
    ((handleRemovedLoop env db keys).2
      = (keys.filter (fun k' => (db.getItemState k').isSome)).length) :=
  ⟨fun h => by simp [handleDeletedItem, h],
    fun h => by simp [handleDeletedItem, h],
    deletedLoopInc_removed env keys db r,
    deletedLoopInc_errors env keys db r,
    handleRemovedLoop_count env keys db⟩

/-- Witness for the amended C4 on the fixture store: the untracked key
`KX` is a no-op, the tracked key `K1` is handed to the file layer and
marked removed, the incremental loop counts both reported keys, and the
full-sync loop counts only the tracked one. -/
theorem c4_amended_deletion_reconciliation_witness :
    (handleDeletedItem wEnvNoMarks wDbK1 "KX" = (wDbK1, false, none)) ∧
    (handleDeletedItem wEnvNoMarks wDbK1 "K1"
      = (wDbK1.markRemoved "K1", true, some "smith2020")) ∧
    ((deletedLoopInc wEnvNoMarks wDbK1 emptyResult
        ["K1", "KX"]).2.itemsRemoved = 0 + 2) ∧
    ((handleRemovedLoop wEnvNoMarks wDbK1 ["K1", "KX"]).2
      = (["K1", "KX"].filter
          (fun k' => (wDbK1.getItemState k').isSome)).length) ∧
    (["K1", "KX"].filter
        (fun k' => (wDbK1.getItemState k').isSome)).length = 1 :=
  ⟨(c4_amended_deletion_reconciliation wEnvNoMarks wDbK1 "KX" wStK1
      emptyResult []).1 rfl,
    (c4_amended_deletion_reconciliation wEnvNoMarks wDbK1 "K1" wStK1
      emptyResult []).2.1 rfl,
    (c4_amended_deletion_reconciliation wEnvNoMarks wDbK1 "K1" wStK1
      emptyResult ["K1", "KX"]).2.2.1,
    (c4_amended_deletion_reconciliation wEnvNoMarks wDbK1 "K1" wStK1
      emptyResult ["K1", "KX"]).2.2.2.2,
    rfl⟩

/-- The errors accumulated by the fan-out are exactly the formatted
messages of the trace entries that carry a per-item error, appended to the
incoming error list in work order. -/
theorem runItems_errors (env : Env) (libId : String) (batch : BatchData)
    (force : Bool) (items : List RawItem) : ∀ (r : SyncResultR) (db : Db)
    (files : Files),
    (runItems env libId batch force items r db files).result.errors
      = r.errors
        ++ (runItems env libId batch force items r db files).trace.filterMap
          (fun p => p.2.err.map
            (fun m => "Error syncing item " ++ p.1 ++ ": " ++ m)) := by
  induction items with
  | nil => intro r db files; simp [runItems]
  | cons it rest ih =>
    intro r db files
    simp only [runItems]
    rw [ih]
    cases ho : (syncStepB env libId batch db files it force).err with
    | none => simp [applyStep, ho, List.filterMap_cons]
    | some m => simp [applyStep, ho, List.filterMap_cons]

/-- C8: a per-item failure is caught at the item boundary — the run still
returns a result whose error list is exactly the failing items' formatted
messages — while a failure during mode selection, prefetch, deletion
reconciliation or the final version commit aborts the run and propagates,
leaving the already-committed per-item state in place. -/
theorem c8_failure_containment
    (env : Env) (libId : String) (remote : RemoteE) (db : Db) (files : Files)
    (lv v : Nat) (e : String) (modified : List RawItem)
    (anns : List RawAnnot) (atts : List RawAttachment)
    (delKeys : List String) :
    ((db.lastLibraryVersion = some lv →
      remote.libraryVersion = .ok v →
      hasTemplateChanged env.templateHash env.templatePath db.templateVersion
        = false →
      v ≠ lv → ¬ ((v : Int) - (lv : Int) > 1000) →
      remote.itemsSince lv = .ok modified →
      remote.allAnnotationLists = .ok anns →
      remote.allAttachments = .ok atts →
      remote.deletedSince lv = .ok delKeys →
      env.commitFailure = none →
      ∃ r, (incrementalSync env libId remote db files).res = .ok r ∧
        r.errors
          = (incrementalSync env libId remote db files).itemTrace.filterMap
            (fun p => p.2.err.map
              (fun m => "Error syncing item " ++ p.1 ++ ": " ++ m)))) ∧
    ((db.lastLibraryVersion = some lv → remote.libraryVersion = .error e →
      incrementalSync env libId remote db files
        = ⟨db, files, .error e, [], []⟩)) ∧
    ((db.lastLibraryVersion = some lv →
      remote.libraryVersion = .ok v →
      hasTemplateChanged env.templateHash env.templatePath db.templateVersion
        = false →
      v ≠ lv → ¬ ((v : Int) - (lv : Int) > 1000) →
      remote.itemsSince lv = .ok modified →
      remote.allAnnotationLists = .error e →
      incrementalSync env libId remote db files
        = ⟨db, files, .error e, [], []⟩)) ∧
    ((db.lastLibraryVersion = some lv →
      remote.libraryVersion = .ok v →
      hasTemplateChanged env.templateHash env.templatePath db.templateVersion
        = false →
      v ≠ lv → ¬ ((v : Int) - (lv : Int) > 1000) →
      remote.itemsSince lv = .ok modified →
      remote.allAnnotationLists = .ok anns →
      remote.allAttachments = .ok atts →
      remote.deletedSince lv = .error e →
      incrementalSync env libId remote db files
        = ⟨(runItems env libId (buildBatchData anns atts) false modified
              emptyResult db files).db,
           (runItems env libId (buildBatchData anns atts) false modified
              emptyResult db files).files,
           .error e,
           (runItems env libId (buildBatchData anns atts) false modified
              emptyResult db files).trace, []⟩)) ∧
    ((db.lastLibraryVersion = some lv →
      remote.libraryVersion = .ok v →
      hasTemplateChanged env.templateHash env.templatePath db.templateVersion
        = false →
      v ≠ lv → ¬ ((v : Int) - (lv : Int) > 1000) →
      remote.itemsSince lv = .ok modified →
      remote.allAnnotationLists = .ok anns →
      remote.allAttachments = .ok atts →
      remote.deletedSince lv = .ok delKeys →
      env.commitFailure = some e →
      incrementalSync env libId remote db files
        = ⟨(deletedLoopInc env
              (runItems env libId (buildBatchData anns atts) false modified
                emptyResult db files).db
              (runItems env libId (buildBatchData anns atts) false modified
                emptyResult db files).result delKeys).1,
           (runItems env libId (buildBatchData anns atts) false modified
              emptyResult db files).files,
           .error e,
           (runItems env libId (buildBatchData anns atts) false modified
              emptyResult db files).trace, []⟩)) := by
  refine ⟨fun hl hv ht hne hgap hmod hann hatt hdel hcf => ?_,
    fun hl he => by simp [incrementalSync, hl, he],
    fun hl hv ht hne hgap hmod hann => by
      simp [incrementalSync, hl, hv, ht, hne, hgap, hmod, buildBatchDataE,
        hann],
    fun hl hv ht hne hgap hmod hann hatt hdel => by
      simp [incrementalSync, hl, hv, ht, hne, hgap, hmod, buildBatchDataE,
        hann, hatt, hdel],
    fun hl hv ht hne hgap hmod hann hatt hdel hcf => by
      simp [incrementalSync, hl, hv, ht, hne, hgap, hmod, buildBatchDataE,
        hann, hatt, hdel, commitE, hcf]⟩
  have hred : incrementalSync env libId remote db files
      = ⟨recordTemplate env
          { (deletedLoopInc env
              (runItems env libId (buildBatchData anns atts) false modified
                emptyResult db files).db
              (runItems env libId (buildBatchData anns atts) false modified
                emptyResult db files).result delKeys).1 with
            lastLibraryVersion := some v },
         (runItems env libId (buildBatchData anns atts) false modified
            emptyResult db files).files,
         .ok (deletedLoopInc env
            (runItems env libId (buildBatchData anns atts) false modified
              emptyResult db files).db
            (runItems env libId (buildBatchData anns atts) false modified
              emptyResult db files).result delKeys).2,
         (runItems env libId (buildBatchData anns atts) false modified
            emptyResult db files).trace, []⟩ := by
    simp [incrementalSync, hl, hv, ht, hne, hgap, hmod, buildBatchDataE,
      hann, hatt, hdel, commitE, hcf]
  rw [hred]
  refine ⟨_, rfl, ?_⟩
  rw [deletedLoopInc_errors, runItems_errors]
  rfl

/-- A renderer that raises exactly on the record keyed `BAD`. -/
def wEnvFail : Env :=
  ⟨fun _ => some "", fun _ => none,
    fun it _ _ _ _ => if it.key == "BAD" then .error "boom" else .ok "md",
    fun _ => "h", fun ck => ck ++ ".md", fun _ => none, "th", "built-in", none⟩

/-- A raw record whose render will raise. -/
def wRawBad : RawItem := ⟨"BAD", 3, some "bad2020", "book"⟩

/-- A remote at version 6 whose delta holds one good and one render-failing
record. -/
def wRemoteTwo : RemoteE :=
  ⟨.ok 6, .ok [], fun _ => .ok [wRawK1, wRawBad], fun _ => .ok [], .ok [],
    .ok [], fun _ => .error "net"⟩

/-- A remote whose library-version query raises. -/
def wRemoteDown : RemoteE := { wRemoteInc with libraryVersion := .error "down" }

/-- Witness for C8: the run over the two-record delta returns ok with
exactly the failing record's formatted message (concrete result checked
explicitly), and a library-version failure propagates untouched. -/
theorem c8_failure_containment_witness :
    (∃ r, (incrementalSync wEnvFail "lib" wRemoteTwo wDbBare wFiles).res
        = .ok r ∧
      r.errors
        = (incrementalSync wEnvFail "lib" wRemoteTwo wDbBare
            wFiles).itemTrace.filterMap
          (fun p => p.2.err.map
            (fun m => "Error syncing item " ++ p.1 ++ ": " ++ m))) ∧
    (incrementalSync wEnvFail "lib" wRemoteTwo wDbBare wFiles).res
      = .ok ⟨2, 1, 0, 0, 0, 0, ["Error syncing item BAD: boom"]⟩ ∧
    incrementalSync wEnvNoMarks "lib" wRemoteDown wDbBare []
      = ⟨wDbBare, [], .error "down", [], []⟩ :=
  ⟨(c8_failure_containment wEnvFail "lib" wRemoteTwo wDbBare wFiles 5 6 "x"
      [wRawK1, wRawBad] [] [] []).1 rfl rfl rfl (by decide) (by decide)
      rfl rfl rfl rfl rfl,
    rfl,
    (c8_failure_containment wEnvNoMarks "lib" wRemoteDown wDbBare [] 5 0
      "down" [] [] [] []).2.1 rfl rfl⟩

/-- The re-render tail reports exactly the fetch flag it was given. -/
theorem rerenderProceed_fetched (env : Env) (libId : String)
    (batch : BatchData) (files : Files) (st : ItemState) (raw : RawItem)
    (fetched : Bool) :
    (rerenderProceed env libId batch files st raw fetched).fetchedRemote
      = fetched := by
  simp only [rerenderProceed]
  split
  · rfl
  · split <;> rfl

/-- A parse-successful re-render reaches the render call. -/
theorem rerenderProceed_render (env : Env) (libId : String)
    (batch : BatchData) (files : Files) (st : ItemState) (raw : RawItem)
    (fetched : Bool)
    (h : (rerenderProceed env libId batch files st raw fetched).parsedOk
      = true) :
    (rerenderProceed env libId batch files st raw fetched).renderCalled
      = true := by
  simp only [rerenderProceed] at h ⊢
  split at h
  · exact absurd h (by simp)
  · split at h <;> rfl

/-- With a cached payload present, `_rerender_single_item` never touches
the remote source. -/
theorem rerenderStep_no_fetch (env : Env) (libId : String) (remote : RemoteE)
    (batch : BatchData) (db : Db) (files : Files) (st : ItemState)
    (raw : RawItem) (h : db.getItemJson st.zoteroKey = some raw) :
    (rerenderStep env libId remote batch db files st).fetchedRemote
      = false := by
  simp only [rerenderStep, h]
  exact rerenderProceed_fetched env libId batch files st raw false

/-- A parse-successful re-render step reaches the render call. -/
theorem rerenderStep_render (env : Env) (libId : String) (remote : RemoteE)
    (batch : BatchData) (db : Db) (files : Files) (st : ItemState)
    (h : (rerenderStep env libId remote batch db files st).parsedOk = true) :
    (rerenderStep env libId remote batch db files st).renderCalled = true := by
  simp only [rerenderStep] at h ⊢
  split at h
  · exact rerenderProceed_render _ _ _ _ _ _ _ h
  · split at h
    · exact absurd h (by simp)
    · exact rerenderProceed_render _ _ _ _ _ _ _ h

/-- Upserting a row with a cached payload keeps every present payload
present. -/
theorem getItemJson_isSome_upsertItem (db : Db) (st : ItemState)
    (raw : RawItem) (k : String)
    (h : (db.getItemJson k).isSome = true) :
    ((db.upsertItem st (some raw)).getItemJson k).isSome = true := by
  unfold Db.upsertItem Db.getItemJson
  by_cases hk : k = st.zoteroKey
  · subst hk
    rw [lookup_dictSet_self]
    rfl
  · rw [lookup_dictSet_ne _ _ _ _ hk]
    exact h

/-- Accounting a re-render outcome keeps every present payload present. -/
theorem getItemJson_isSome_applyRerender (o : RerenderOut) (r : SyncResultR)
    (db : Db) (files : Files) (k : String)
    (h : (db.getItemJson k).isSome = true) :
    (((applyRerender o r db files).2.1).getItemJson k).isSome = true := by
  unfold applyRerender
  cases ho : o.upsert with
  | none => simpa [ho] using h
  | some pair =>
    obtain ⟨st, raw⟩ := pair
    simp only [ho]
    exact getItemJson_isSome_upsertItem db st raw k h

/-- If every listed state row has a cached payload at the start of the
re-render fan-out, then no trace entry fetched from the remote source
(upserts along the way never drop a payload). -/
theorem runRerender_no_fetch (env : Env) (libId : String) (remote : RemoteE)
    (batch : BatchData) (actives : List ItemState) :
    ∀ (r : SyncResultR) (db : Db) (files : Files),
    (∀ st ∈ actives, (db.getItemJson st.zoteroKey).isSome = true) →
    ∀ p ∈ (runRerender env libId remote batch actives r db files).trace,
      p.2.fetchedRemote = false := by
  induction actives with
  | nil => intro r db files _ p hp; cases hp
  | cons st rest ih =>
    intro r db files hinv p hp
    simp only [runRerender, List.mem_cons] at hp
    have hst : (db.getItemJson st.zoteroKey).isSome = true :=
      hinv st (List.mem_cons_self st rest)
    obtain ⟨raw, hraw⟩ := Option.isSome_iff_exists.mp hst
    cases hp with
    | inl h =>
      rw [h]
      exact rerenderStep_no_fetch env libId remote batch db files st raw hraw
    | inr h =>
      refine ih _ _ _ (fun st' hst' => ?_) p h
      exact getItemJson_isSome_applyRerender _ _ _ _ _
        (hinv st' (List.mem_cons_of_mem st hst'))

/-- The re-render fan-out's trace lists the active keys in order. -/
theorem runRerender_trace_keys (env : Env) (libId : String) (remote : RemoteE)
    (batch : BatchData) (actives : List ItemState) :
    ∀ (r : SyncResultR) (db : Db) (files : Files),
    (runRerender env libId remote batch actives r db files).trace.map
      Prod.fst = actives.map (·.zoteroKey) := by
  induction actives with
  | nil => intro r db files; rfl
  | cons st rest ih =>
    intro r db files
    simp only [runRerender, List.map_cons]
    rw [ih]

/-- Every trace entry of the re-render fan-out is the outcome of
`rerenderStep` on its state row. -/
theorem runRerender_trace_mem (env : Env) (libId : String) (remote : RemoteE)
    (batch : BatchData) (actives : List ItemState) :
    ∀ (r : SyncResultR) (db : Db) (files : Files)
      (p : String × RerenderOut),
    p ∈ (runRerender env libId remote batch actives r db files).trace →
    ∃ (st : ItemState) (db' : Db) (files' : Files),
      p = (st.zoteroKey, rerenderStep env libId remote batch db' files' st) := by
  induction actives with
  | nil => intro r db files p hp; cases hp
  | cons st rest ih =>
    intro r db files p hp
    simp only [runRerender, List.mem_cons] at hp
    cases hp with
    | inl h => exact ⟨st, db, files, h⟩
    | inr h => exact ih _ _ _ p h

/-- C6: a template change routes the incremental entry point into the full
re-render: every active state row is processed from its cached payload with
no remote fetch of item content, each parse-successful row reaches the
render call, the run succeeds, and the new template version is recorded
(annotations and attachments are resolved from the batch prefetch inside
`rerenderStep`). -/
theorem c6_template_change_rerenders_from_cache
    (env : Env) (libId : String) (remote : RemoteE) (db : Db) (files : Files)
    (lv v : Nat) (anns : List RawAnnot) (atts : List RawAttachment)
    (hl : db.lastLibraryVersion = some lv)
    (hv : remote.libraryVersion = .ok v)
    (ht : hasTemplateChanged env.templateHash env.templatePath
      db.templateVersion = true)
    (hann : remote.allAnnotationLists = .ok anns)
    (hatt : remote.allAttachments = .ok atts)
    (hcached : ∀ st ∈ db.activeItems,
      (db.getItemJson st.zoteroKey).isSome = true) :
    incrementalSync env libId remote db files
      = fullRerenderAllItems env libId remote db files ∧
    (∀ p ∈ (incrementalSync env libId remote db files).rerenderTrace,
      p.2.fetchedRemote = false) ∧
    (incrementalSync env libId remote db files).rerenderTrace.map Prod.fst
      = db.activeItems.map (·.zoteroKey) ∧
    (∀ p ∈ (incrementalSync env libId remote db files).rerenderTrace,
      p.2.parsedOk = true → p.2.renderCalled = true) ∧
    (incrementalSync env libId remote db files).db.templateVersion
      = some ⟨env.templateHash, env.templatePath⟩ ∧
    ∃ r, (incrementalSync env libId remote db files).res = .ok r := by
  have hdeleg : incrementalSync env libId remote db files
      = fullRerenderAllItems env libId remote db files := by
    simp [incrementalSync, hl, hv, ht]
  have hfull : fullRerenderAllItems env libId remote db files
      = ⟨recordTemplate env
          (runRerender env libId remote (buildBatchData anns atts)
            db.activeItems emptyResult db files).db,
         (runRerender env libId remote (buildBatchData anns atts)
            db.activeItems emptyResult db files).files,
         .ok (runRerender env libId remote (buildBatchData anns atts)
            db.activeItems emptyResult db files).result,
         [],
         (runRerender env libId remote (buildBatchData anns atts)
            db.activeItems emptyResult db files).trace⟩ := by
    simp [fullRerenderAllItems, buildBatchDataE, hann, hatt]
  refine ⟨hdeleg, ?_, ?_, ?_, ?_, ?_⟩
  · rw [hdeleg, hfull]
    exact runRerender_no_fetch env libId remote (buildBatchData anns atts)
      db.activeItems emptyResult db files hcached
  · rw [hdeleg, hfull]
    exact runRerender_trace_keys env libId remote (buildBatchData anns atts)
      db.activeItems emptyResult db files
  · rw [hdeleg, hfull]
    intro p hp hpo
    obtain ⟨st, db', files', rfl⟩ :=
      runRerender_trace_mem env libId remote (buildBatchData anns atts)
        db.activeItems emptyResult db files p hp
    exact rerenderStep_render env libId remote (buildBatchData anns atts)
      db' files' st hpo
  · rw [hdeleg, hfull]
    rfl
  · rw [hdeleg, hfull]
    exact ⟨_, rfl⟩

/-- A store tracking the fixture row with its cached payload, under an
outdated recorded template fingerprint. -/
def wDbTmpl : Db :=
  ⟨[("K1", ⟨wStK1, some wRawK1⟩)], some 5, some ⟨"old", "built-in"⟩⟩

/-- Witness for C6: with the stored fingerprint `old` against the active
`th`, the incremental entry point delegates to the full re-render, the one
active row is traced with no remote fetch, and the new template version is
recorded. -/
theorem c6_template_change_rerenders_from_cache_witness :
    (incrementalSync wEnvNoMarks "lib" wRemoteInc wDbTmpl wFiles
      = fullRerenderAllItems wEnvNoMarks "lib" wRemoteInc wDbTmpl wFiles) ∧
    (incrementalSync wEnvNoMarks "lib" wRemoteInc wDbTmpl
      wFiles).rerenderTrace.map Prod.fst = ["K1"] ∧
    (incrementalSync wEnvNoMarks "lib" wRemoteInc wDbTmpl
      wFiles).db.templateVersion = some ⟨"th", "built-in"⟩ ∧
    (∀ p ∈ (incrementalSync wEnvNoMarks "lib" wRemoteInc wDbTmpl
        wFiles).rerenderTrace, p.2.fetchedRemote = false) :=
  ⟨(c6_template_change_rerenders_from_cache wEnvNoMarks "lib" wRemoteInc
      wDbTmpl wFiles 5 6 [] [] rfl rfl rfl rfl rfl (by decide)).1,
    ((c6_template_change_rerenders_from_cache wEnvNoMarks "lib" wRemoteInc
      wDbTmpl wFiles 5 6 [] [] rfl rfl rfl rfl rfl (by decide)).2.2.1).trans
      rfl,
    (c6_template_change_rerenders_from_cache wEnvNoMarks "lib" wRemoteInc
      wDbTmpl wFiles 5 6 [] [] rfl rfl rfl rfl rfl (by decide)).2.2.2.2.1,
    (c6_template_change_rerenders_from_cache wEnvNoMarks "lib" wRemoteInc
      wDbTmpl wFiles 5 6 [] [] rfl rfl rfl rfl rfl (by decide)).2.1⟩

end Zotmd
